import Mathlib

/-!
# Verification of the Live Duplex Voice Session Engine

A shallow embedding of the audio/session engine of the Emotional AI repository
(`services/gemini` and the `LivePracticeView` / `ConversationGuardianView`
components), together with proofs and refutations of the specified properties.

JS numbers are modelled as rationals (every concrete input used below is exactly
representable in IEEE binary32/binary64 and every operation on it is exact, so
the rational model agrees with the JS float semantics at those inputs).
Fallible JS operations (`atob`, the `Int16Array` constructor, `createBuffer`)
are modelled with `Except`.
-/

set_option autoImplicit false

deriving instance DecidableEq for Except

namespace EmotionalAI

/-! ## Frame Codec

`createBlob` (services/gemini) encodes captured samples; `decode` and
`decodeAudioData` (LivePracticeView) decode the inbound base64 PCM payload. -/

/-- Truncation toward zero on rationals: the semantics of storing a JS number in an
`Int16Array` element (ECMA-262 `ToInt16` truncates the fractional part toward zero). -/
def jsTrunc (q : ℚ) : ℤ := if 0 ≤ q then ⌊q⌋ else ⌈q⌉

/-- Wrapping of an integer into the signed 16-bit range, the final step of
`ToInt16` (a no-op for the in-range values produced by the codec). -/
def wrapInt16 (v : ℤ) : ℤ := (v + 32768) % 65536 - 32768

/-- One sample of `createBlob`:
`const s = Math.max(-1, Math.min(1, data[i])); int16[i] = s < 0 ? s * 0x8000 : s * 0x7FFF;`. -/
def sampleToInt16 (x : ℚ) : ℤ :=
  let s := max (-1) (min 1 x)
  wrapInt16 (if s < 0 then jsTrunc (s * 32768) else jsTrunc (s * 32767))

/-- Little-endian two-byte layout of one int16 value, the memory layout seen by
`new Uint8Array(int16.buffer)` (typed arrays are little-endian on all supported targets). -/
def int16ToBytes (v : ℤ) : List ℕ :=
  let u := (v % 65536).toNat
  [u % 256, u / 256]

/-- Byte image of an `Int16Array`, as read off by the `binary` loop of `createBlob`. -/
def bytesOfInt16s (vs : List ℤ) : List ℕ :=
  (vs.map int16ToBytes).flatten

/-- Reinterpretation of one little-endian byte pair as a signed 16-bit value. -/
def int16Pair (b0 b1 : ℕ) : ℤ :=
  let u := b0 + 256 * b1
  if u < 32768 then (u : ℤ) else (u : ℤ) - 65536

/-- `new Int16Array(data.buffer)`: throws a `RangeError` when the byte length is not a
multiple of 2, otherwise reinterprets consecutive little-endian byte pairs. -/
def int16View : List ℕ → Except String (List ℤ)
  | [] => .ok []
  | [_] => .error "RangeError"
  | b0 :: b1 :: rest => do
      let tail ← int16View rest
      .ok (int16Pair b0 b1 :: tail)

/-- The base64 alphabet, in index order. -/
def b64chars : List Char :=
  ['A', 'B', 'C', 'D', 'E', 'F', 'G', 'H', 'I', 'J', 'K', 'L', 'M',
   'N', 'O', 'P', 'Q', 'R', 'S', 'T', 'U', 'V', 'W', 'X', 'Y', 'Z',
   'a', 'b', 'c', 'd', 'e', 'f', 'g', 'h', 'i', 'j', 'k', 'l', 'm',
   'n', 'o', 'p', 'q', 'r', 's', 't', 'u', 'v', 'w', 'x', 'y', 'z',
   '0', '1', '2', '3', '4', '5', '6', '7', '8', '9', '+', '/']

/-- Encoding of one sextet. -/
def encB64 (n : ℕ) : Char := b64chars.getD n 'A'

/-- Decoding of one base64 character. -/
def decB64 (c : Char) : Option ℕ := b64chars.findIdx? (fun x => x == c)

/-- Decoding of one base64 character, `InvalidCharacterError` on anything outside
the alphabet (the behavior of `atob`). -/
def reqB64 (c : Char) : Except String ℕ :=
  match decB64 c with
  | some n => .ok n
  | none => .error "InvalidCharacterError"

/-- `btoa` over a byte sequence (the JS code builds a latin-1 `binary` string with
`String.fromCharCode` and base64-encodes it; the intermediate string is byte-faithful). -/
def btoaBytes : List ℕ → List Char
  | [] => []
  | [a] => [encB64 (a / 4), encB64 (a % 4 * 16), '=', '=']
  | [a, b] => [encB64 (a / 4), encB64 (a % 4 * 16 + b / 16), encB64 (b % 16 * 4), '=']
  | a :: b :: c :: rest =>
      encB64 (a / 4) :: encB64 (a % 4 * 16 + b / 16) :: encB64 (b % 16 * 4 + c / 64)
        :: encB64 (c % 64) :: btoaBytes rest

/-- `atob` on canonical padded base64 (the exact inverse on everything `btoa`
produces; malformed input is an `InvalidCharacterError`, as in JS). -/
def atobChars : List Char → Except String (List ℕ)
  | [] => .ok []
  | c0 :: c1 :: c2 :: c3 :: rest =>
      if c2 = '=' then
        if c3 = '=' ∧ rest = [] then do
          let s0 ← reqB64 c0
          let s1 ← reqB64 c1
          .ok [s0 * 4 + s1 / 16]
        else .error "InvalidCharacterError"
      else if c3 = '=' then
        if rest = [] then do
          let s0 ← reqB64 c0
          let s1 ← reqB64 c1
          let s2 ← reqB64 c2
          .ok [s0 * 4 + s1 / 16, s1 % 16 * 16 + s2 / 4]
        else .error "InvalidCharacterError"
      else do
        let s0 ← reqB64 c0
        let s1 ← reqB64 c1
        let s2 ← reqB64 c2
        let s3 ← reqB64 c3
        let tail ← atobChars rest
        .ok ((s0 * 4 + s1 / 16) :: (s1 % 16 * 16 + s2 / 4) :: (s2 % 4 * 64 + s3) :: tail)
  | _ => .error "InvalidCharacterError"

/-- The wire blob returned by `createBlob`. -/
structure WireBlob where
  data : List Char
  mimeType : String
deriving DecidableEq

/-- `createBlob` (services/gemini): clip, scale to int16, pack little-endian,
base64-encode, tag with the PCM MIME type. -/
def createBlob (data : List ℚ) : WireBlob :=
  { data := btoaBytes (bytesOfInt16s (data.map sampleToInt16)),
    mimeType := "audio/pcm;rate=16000" }

/-- `decode` (LivePracticeView): `atob` then `charCodeAt` into a `Uint8Array`. -/
def decode (base64 : List Char) : Except String (List ℕ) :=
  atobChars base64

/-- The decoded audio buffer produced by `ctx.createBuffer` + the fill loop of
`decodeAudioData` (one sample list per channel). -/
structure AudioBuffer where
  numChannels : ℕ
  sampleRate : ℕ
  channels : List (List ℚ)
deriving DecidableEq

/-- `decodeAudioData` (LivePracticeView): reinterpret the bytes as int16
(`RangeError` on odd byte length), compute `frameCount = dataInt16.length / numChannels`
(JS real division), return a one-frame silent buffer when `frameCount <= 0`, otherwise
fill a buffer of `⌊frameCount⌋` frames (the WebIDL `unsigned long` conversion of the
`createBuffer` length truncates; a zero-length buffer is a `NotSupportedError`; writes past
the end of a typed array are silently ignored) with `dataInt16[i * numChannels + ch] / 32768`.
Faithful for `numChannels ≥ 1` (the engine always passes 1). -/
def decodeAudioData (data : List ℕ) (sampleRate numChannels : ℕ) :
    Except String AudioBuffer := do
  let dataInt16 ← int16View data
  let frameCount : ℚ := (dataInt16.length : ℚ) / (numChannels : ℚ)
  if frameCount ≤ 0 then
    .ok { numChannels := numChannels, sampleRate := sampleRate,
          channels := List.replicate numChannels [0] }
  else
    let bufLen : ℕ := frameCount.floor.toNat
    if bufLen = 0 then .error "NotSupportedError"
    else
      .ok { numChannels := numChannels, sampleRate := sampleRate,
            channels := (List.range numChannels).map (fun ch =>
              (List.range bufLen).map (fun i =>
                ((dataInt16.getD (i * numChannels + ch) 0 : ℤ) : ℚ) / 32768)) }

/-- The inbound audio path of the `onMessage` handler:
`decodeAudioData(decode(base64EncodedAudioString), ctx, 24000, 1)`. -/
def decodeInbound (base64 : List Char) : Except String AudioBuffer := do
  let bytes ← decode base64
  decodeAudioData bytes 24000 1

/-- The value a sample `x` comes back as after the codec round trip. -/
def decodedSample (x : ℚ) : ℚ := (sampleToInt16 x : ℚ) / 32768

/-- Round trip of one block of samples: encode with `createBlob`, decode with the
client path (`decode` + `decodeAudioData`, mono), take the single channel. -/
def roundTrip (samples : List ℚ) : Except String (List ℚ) := do
  let buf ← decodeInbound (createBlob samples).data
  .ok (buf.channels.getD 0 [])

/-! ## Playback Scheduler

The audio branch and the `interrupted` branch of the `onMessage` handler in
`LivePracticeView.connect`, acting on `nextStartTimeRef`, `sourcesRef` and the
`isAiSpeaking` flag.  Stopped units are recorded so that the effect of
`source.stop()` on the members of the active set is observable. -/

structure PlaybackState where
  nextStartTime : ℚ
  activeUnits : List ℕ
  aiSpeaking : Bool
  stoppedUnits : List ℕ
deriving DecidableEq

/-- The audio branch: `nextStartTime = max(nextStartTime, ctx.currentTime)`;
`source.start(nextStartTime)`; `nextStartTime += audioBuffer.duration`;
`sourcesRef.add(source)`; `setIsAiSpeaking(true)`.
Returns the new state and the start time passed to `source.start`. -/
def onAudioChunk (s : PlaybackState) (currentTime duration : ℚ) (uid : ℕ) :
    PlaybackState × ℚ :=
  let start := max s.nextStartTime currentTime
  ({ s with nextStartTime := start + duration,
            activeUnits := uid :: s.activeUnits,
            aiSpeaking := true }, start)

/-- The `interrupted` branch: `source.stop()` and removal for every member of
`sourcesRef`, `nextStartTime = 0`, `setIsAiSpeaking(false)`. -/
def onInterrupted (s : PlaybackState) : PlaybackState :=
  { s with stoppedUnits := s.stoppedUnits ++ s.activeUnits,
           activeUnits := [],
           nextStartTime := 0,
           aiSpeaking := false }

/-- State of the scheduler after delivering buffers `0..n-1` of an uninterrupted
stream with arrival clock `now` and durations `dur`, starting from a fresh session
(`nextStartTimeRef` initialized to 0). -/
def schedState (now dur : ℕ → ℚ) : ℕ → PlaybackState
  | 0 => ⟨0, [], false, []⟩
  | n + 1 => (onAudioChunk (schedState now dur n) (now n) (dur n) n).1

/-- Start time assigned to buffer `n` of an uninterrupted stream. -/
def schedStart (now dur : ℕ → ℚ) (n : ℕ) : ℚ :=
  (onAudioChunk (schedState now dur n) (now n) (dur n) n).2

/-! ## Capture Gate

The `onaudioprocess` handler installed by `LivePracticeView.connect`. -/

/-- One capture tick:
`if (isMutedRef.current) return;`
`if (nextStartTimeRef.current > outputAudioContext.currentTime) return;`
otherwise encode the frame with `createBlob` and send it. -/
def captureTick (isMuted : Bool) (nextStartTime currentTime : ℚ)
    (inputData : List ℚ) : Option WireBlob :=
  if isMuted then none
  else if currentTime < nextStartTime then none
  else some (createBlob inputData)

structure TickInput where
  isMuted : Bool
  nextStartTime : ℚ
  currentTime : ℚ
  inputData : List ℚ

/-- The frames actually transmitted over a run of capture ticks. -/
def transmittedFrames (ticks : List TickInput) : List WireBlob :=
  ticks.filterMap fun t =>
    captureTick t.isMuted t.nextStartTime t.currentTime t.inputData

/-! ## Transcript Assembler (conversational mode)

`updateStreamingTranscript` in `LivePracticeView` (role-switch flush mode). -/

/-- `enum MessageType { USER = 'user', MODEL = 'model' }` (types.ts). -/
inductive MessageType
  | USER
  | MODEL
deriving DecidableEq

/-- `ChatMessage` (types.ts); the `Date` timestamp is an abstract clock value. -/
structure ChatMessage where
  id : String
  role : MessageType
  text : String
  timestamp : ℕ
deriving DecidableEq

/-- `updateStreamingTranscript(role, textFragment)`: if the last message has the same
role, extend its text in place; otherwise append a fresh message.  The fresh id
(`Date.now() + '-' + role`) and timestamp (`new Date()`) come from the environment and
are passed in. -/
def updateStreamingTranscript (prev : List ChatMessage) (role : MessageType)
    (textFragment : String) (freshId : String) (now : ℕ) : List ChatMessage :=
  match prev.getLast? with
  | some lastMsg =>
      if lastMsg.role = role then
        prev.dropLast ++ [{ lastMsg with text := lastMsg.text ++ textFragment }]
      else
        prev ++ [{ id := freshId, role := role, text := textFragment, timestamp := now }]
  | none =>
      prev ++ [{ id := freshId, role := role, text := textFragment, timestamp := now }]

/-! ## Tool-Call Handler (silent-monitor mode)

The `message.toolCall` branch of `connectGuardian`'s `onmessage` callback
(services/gemini).  The application callback `onStatusUpdate` runs synchronously
*before* the acknowledgement is scheduled with `sessionPromise.then(...)`; a
rejection of the inner `sendToolResponse` promise is caught and logged
(`.catch(e => console.warn(...))`). -/

/-- `GuardianSignal` (types.ts). -/
structure GuardianSignal where
  signal : String
  reason : String
  gentle_hint : Option String
  confidence_note : Option String
  risk_trend : String
  suggested_action : Option String
deriving DecidableEq

/-- One element of `message.toolCall.functionCalls` (the args are cast, unvalidated). -/
structure FunctionCall where
  id : String
  name : String
  args : GuardianSignal
deriving DecidableEq

/-- One attempted `sendToolResponse`: the id/name it references and whether the
transport send succeeded (a failure is caught and logged, never rethrown). -/
structure AckAttempt where
  id : String
  name : String
  sent : Bool
deriving DecidableEq

/-- The tool-call loop.  `cb` is the application callback `onStatusUpdate` (which may
throw, modelled by `Except`); `sendOk` tells whether the acknowledgement send for a
given call id succeeds.  Returns the acknowledgement attempts made (in order) and the
exception escaping the handler, if any: a callback throw aborts the loop, so no
acknowledgement is scheduled for that call or any later one, while acknowledgements
already scheduled for earlier calls still run. -/
def handleToolCalls (cb : GuardianSignal → Except String Unit) (sendOk : String → Bool) :
    List FunctionCall → List AckAttempt × Option String
  | [] => ([], none)
  | fc :: rest =>
      if fc.name = "update_guardian_status" then
        match cb fc.args with
        | .error e => ([], some e)
        | .ok _ =>
            let r := handleToolCalls cb sendOk rest
            ({ id := fc.id, name := fc.name, sent := sendOk fc.id } :: r.1, r.2)
      else handleToolCalls cb sendOk rest

/-! ## Session Lifecycle Controller

`LivePracticeView` (conversational mode) and `ConversationGuardianView`
(silent-monitor mode).  Statuses are the literal strings of the source.  The
resource booleans record whether `MediaStreamTrack.stop()` / `AudioContext.close()`
have been invoked; the source never calls `stream.getTracks()[..].stop()`. -/

/-- `PracticeFeedback` (types.ts). -/
structure PracticeFeedback where
  strengths : List String
  improvements : List String
  goal_alignment_score : ℚ
  clarity_score : ℚ
  empathy_score : ℚ
  confidence_score : ℚ
  coach_note : String
deriving DecidableEq

/-- The mutable session state of `LivePracticeView` relevant to the lifecycle:
React state, the refs, and the external resources. `handOffCount` counts invocations
of the feedback-generation collaborator (`generatePracticeFeedback`). -/
structure PracticeState where
  isConnected : Bool
  isAiSpeaking : Bool
  status : String
  conversation : List ChatMessage
  feedback : Option PracticeFeedback
  feedbackError : Option String
  isExplicitlyStopped : Bool
  sessionOpen : Bool
  micTracksStopped : Bool
  inputCtxClosed : Bool
  outputCtxClosed : Bool
  handOffCount : ℕ
deriving DecidableEq

/-- The `ON CLOSE` transport callback registered by `connect`
(LivePracticeView:441-451): clear the speaking and connected flags; surface the
dropped-connection status unless the stop was explicit.  Nothing else is touched. -/
def onCloseCallback (s : PracticeState) : PracticeState :=
  { s with isAiSpeaking := false,
           isConnected := false,
           status := if s.isExplicitlyStopped then "Disconnected"
             else "Connection Ended (Check Network). You can View Analysis." }

/-- `handleDisconnect` (LivePracticeView:476-522): mark the stop explicit, close the
session handle (nulled afterwards; the close is wrapped in try/catch), close both
audio contexts (each wrapped in try/catch), then — when more than two transcript
messages accumulated — hand the transcript to the feedback collaborator.  `fb` is
that collaborator's outcome (`some` = resolved feedback, `none` = rejected).
Microphone tracks are not touched anywhere in this function. -/
def handleDisconnect (s : PracticeState) (fb : Option PracticeFeedback) : PracticeState :=
  let s1 := { s with isExplicitlyStopped := true,
                     sessionOpen := false,
                     inputCtxClosed := true,
                     outputCtxClosed := true }
  if 2 < s1.conversation.length then
    match fb with
    | some f =>
        { s1 with isConnected := false, isAiSpeaking := false,
                  handOffCount := s1.handOffCount + 1,
                  feedback := some f, status := "Session Complete" }
    | none =>
        { s1 with isConnected := false, isAiSpeaking := false,
                  handOffCount := s1.handOffCount + 1,
                  feedbackError := some "Failed to analyze session. The conversation was saved above, but AI feedback is unavailable.",
                  status := "Session Complete (Error)" }
  else
    { s1 with isConnected := false, isAiSpeaking := false, status := "Disconnected" }

/-- The catch block of `connect` (LivePracticeView:469-473): set an error status and
clear the connected flag.  No resource is released here. -/
def connectCatch (s : PracticeState) (msg : String) : PracticeState :=
  { s with status := "Error: " ++ msg, isConnected := false }

/-- One transcript row of `ConversationGuardianView`. -/
structure TranscriptItem where
  role : String
  text : String
  time : String
deriving DecidableEq

/-- The mutable state of `ConversationGuardianView` relevant to the lifecycle. -/
structure GuardState where
  relationship : String
  isConnected : Bool
  status : String
  guardianSignal : Option GuardianSignal
  transcript : List TranscriptItem
  isMonitoring : Bool
  sessionOpen : Bool
  micTracksStopped : Bool
  inputCtxClosed : Bool
deriving DecidableEq

/-- The `onclose` handler of `startMonitoring` (ConversationGuardianView:134-146):
clear the connected flag; if monitoring was not explicitly stopped, surface the
dropped status and keep everything else (transcript, signal, monitoring flag). -/
def guardOnClose (g : GuardState) : GuardState :=
  { g with isConnected := false,
           status := if g.isMonitoring then "Connection Dropped. Transcript Saved."
             else "Disconnected" }

/-- `stopMonitoring` (ConversationGuardianView:164-182): clear the monitoring flag,
close the session handle (nulled; try/catch), close the input audio context
(try/catch), clear the connected flag and the signal, set the stopped status.
Microphone tracks are not touched. -/
def stopMonitoring (g : GuardState) : GuardState :=
  { g with isMonitoring := false,
           sessionOpen := false,
           inputCtxClosed := true,
           isConnected := false,
           status := "Stopped",
           guardianSignal := none }

/-! ## Helper lemmas -/

attribute [local semireducible] Rat.add Rat.mul Rat.sub Rat.inv

theorem bind_ok_eq {ε α β : Type} (a : α) (f : α → Except ε β) :
    (Except.ok a : Except ε α) >>= f = f a := rfl

theorem decB64_encB64 : ∀ n < 64, decB64 (encB64 n) = some n := by decide

theorem encB64_ne_pad : ∀ n < 64, encB64 n ≠ '=' := by decide

theorem reqB64_encB64 {n : ℕ} (h : n < 64) : reqB64 (encB64 n) = .ok n := by
  simp [reqB64, decB64_encB64 n h]

theorem atobChars_btoaBytes :
    ∀ bs : List ℕ, (∀ b ∈ bs, b < 256) → atobChars (btoaBytes bs) = .ok bs := by
  intro bs
  induction bs using btoaBytes.induct with
  | case1 =>
      intro _
      simp [btoaBytes, atobChars]
  | case2 a =>
      intro h
      have ha : a < 256 := h a (by simp)
      simp only [btoaBytes, atobChars]
      rw [reqB64_encB64 (by omega), reqB64_encB64 (by omega)]
      simp [bind_ok_eq]
      omega
  | case3 a b =>
      intro h
      have ha : a < 256 := h a (by simp)
      have hb : b < 256 := h b (by simp)
      have hne : encB64 (b % 16 * 4) ≠ '=' := encB64_ne_pad _ (by omega)
      simp only [btoaBytes, atobChars]
      rw [if_neg hne, reqB64_encB64 (by omega), reqB64_encB64 (by omega),
        reqB64_encB64 (by omega)]
      simp [bind_ok_eq]
      omega
  | case4 a b c rest ih =>
      intro h
      have ha : a < 256 := h a (by simp)
      have hb : b < 256 := h b (by simp)
      have hc : c < 256 := h c (by simp)
      have hne2 : encB64 (b % 16 * 4 + c / 64) ≠ '=' := encB64_ne_pad _ (by omega)
      have hne3 : encB64 (c % 64) ≠ '=' := encB64_ne_pad _ (by omega)
      have hrest := ih (fun x hx => h x (by simp [hx]))
      simp only [btoaBytes, atobChars]
      rw [if_neg hne2, if_neg hne3, reqB64_encB64 (by omega), reqB64_encB64 (by omega),
        reqB64_encB64 (by omega), reqB64_encB64 (by omega)]
      simp [bind_ok_eq, hrest]
      omega

theorem bytesOfInt16s_lt_256 :
    ∀ vs : List ℤ, ∀ b ∈ bytesOfInt16s vs, b < 256 := by
  intro vs b hb
  simp only [bytesOfInt16s, List.mem_flatten, List.mem_map] at hb
  obtain ⟨l, ⟨v, _, rfl⟩, hbl⟩ := hb
  simp only [int16ToBytes, List.mem_cons, List.not_mem_nil, or_false] at hbl
  have : (v % 65536).toNat < 65536 := by omega
  rcases hbl with h | h <;> subst h <;> omega

theorem int16Pair_int16ToBytes {v : ℤ} (h1 : -32768 ≤ v) (h2 : v < 32768) :
    int16Pair ((v % 65536).toNat % 256) ((v % 65536).toNat / 256) = v := by
  unfold int16Pair
  dsimp only
  split <;> omega

theorem int16View_bytesOfInt16s :
    ∀ vs : List ℤ, (∀ v ∈ vs, -32768 ≤ v ∧ v < 32768) →
      int16View (bytesOfInt16s vs) = .ok vs := by
  intro vs
  induction vs with
  | nil => intro _; simp [bytesOfInt16s, int16View]
  | cons v vs ih =>
      intro h
      have hv := h v (by simp)
      have hrest := ih (fun x hx => h x (by simp [hx]))
      simp only [bytesOfInt16s, List.map_cons, List.flatten_cons, int16ToBytes]
      show int16View ((v % 65536).toNat % 256 :: (v % 65536).toNat / 256 ::
        bytesOfInt16s vs) = _
      simp only [int16View, hrest, bind_ok_eq]
      rw [int16Pair_int16ToBytes hv.1 hv.2]

theorem wrapInt16_bounds (v : ℤ) : -32768 ≤ wrapInt16 v ∧ wrapInt16 v ≤ 32767 := by
  unfold wrapInt16
  omega

theorem wrapInt16_eq_self {v : ℤ} (h1 : -32768 ≤ v) (h2 : v ≤ 32767) :
    wrapInt16 v = v := by
  unfold wrapInt16
  omega

theorem sampleToInt16_bounds (x : ℚ) :
    -32768 ≤ sampleToInt16 x ∧ sampleToInt16 x ≤ 32767 := by
  unfold sampleToInt16
  exact wrapInt16_bounds _

theorem sampleToInt16_no_clip {x : ℚ} (h1 : -1 ≤ x) (h2 : x ≤ 1) :
    sampleToInt16 x = if x < 0 then ⌈x * 32768⌉ else ⌊x * 32767⌋ := by
  unfold sampleToInt16 jsTrunc
  dsimp only
  rw [min_eq_right h2, max_eq_right h1]
  by_cases hx : x < 0
  · have hq : x * 32768 < 0 := mul_neg_of_neg_of_pos hx (by norm_num)
    rw [if_pos hx, if_pos hx, if_neg (not_le.mpr hq)]
    apply wrapInt16_eq_self
    · refine Int.le_ceil_iff.mpr ?_
      push_cast
      nlinarith
    · have : ⌈x * 32768⌉ ≤ 0 := Int.ceil_le.mpr (by exact_mod_cast le_of_lt hq)
      omega
  · have hx0 : 0 ≤ x := not_lt.mp hx
    have hq : 0 ≤ x * 32767 := mul_nonneg hx0 (by norm_num)
    rw [if_neg hx, if_neg hx, if_pos hq]
    apply wrapInt16_eq_self
    · have : (0 : ℤ) ≤ ⌊x * 32767⌋ := Int.le_floor.mpr (by exact_mod_cast hq)
      omega
    · refine Int.floor_le_iff.mpr ?_
      push_cast
      nlinarith

theorem decodedSample_close {x : ℚ} (h1 : -1 ≤ x) (h2 : x ≤ 1) :
    |x - decodedSample x| < 2 / 32768 := by
  unfold decodedSample
  rw [sampleToInt16_no_clip h1 h2]
  have h32 : (0 : ℚ) < 32768 := by norm_num
  by_cases hx : x < 0
  · rw [if_pos hx]
    have hle : x * 32768 ≤ (⌈x * 32768⌉ : ℚ) := Int.le_ceil _
    have hlt : (⌈x * 32768⌉ : ℚ) < x * 32768 + 1 := Int.ceil_lt_add_one _
    have key : x - (⌈x * 32768⌉ : ℚ) / 32768 = (x * 32768 - ⌈x * 32768⌉) / 32768 := by
      ring
    rw [key, abs_div, abs_of_pos h32, div_lt_div_iff_of_pos_right h32, abs_lt]
    constructor <;> linarith
  · rw [if_neg hx]
    have hx0 : 0 ≤ x := not_lt.mp hx
    have hle : (⌊x * 32767⌋ : ℚ) ≤ x * 32767 := Int.floor_le _
    have hlt : x * 32767 - 1 < (⌊x * 32767⌋ : ℚ) := Int.sub_one_lt_floor _
    have key : x - (⌊x * 32767⌋ : ℚ) / 32768 = (x * 32768 - ⌊x * 32767⌋) / 32768 := by
      ring
    rw [key, abs_div, abs_of_pos h32, div_lt_div_iff_of_pos_right h32, abs_lt]
    constructor <;> linarith

theorem range_map_getD (l : List ℤ) (f : ℤ → ℚ) :
    (List.range l.length).map (fun i => f (l.getD i 0)) = l.map f := by
  apply List.ext_getElem
  · simp
  · intro i h1 h2
    simp only [List.getElem_map, List.getElem_range]
    rw [List.getD_eq_getElem l 0 (by simpa using h2)]

theorem decodeAudioData_mono (data : List ℕ) (l : List ℤ) (sr : ℕ)
    (h : int16View data = .ok l) (hne : l ≠ []) :
    decodeAudioData data sr 1 = .ok ⟨1, sr, [l.map (fun v : ℤ => (v : ℚ) / 32768)]⟩ := by
  have hpos : 0 < l.length := List.length_pos.mpr hne
  unfold decodeAudioData
  rw [h]
  simp only [bind_ok_eq]
  rw [if_neg (by
    push_cast
    rw [div_one]
    exact_mod_cast not_le.mpr (by exact_mod_cast hpos))]
  have hfloor : (((l.length : ℚ) / ((1 : ℕ) : ℚ)).floor).toNat = l.length := by
    rw [Nat.cast_one, div_one]
    show (⌊(l.length : ℚ)⌋).toNat = l.length
    rw [Int.floor_natCast, Int.toNat_natCast]
  rw [hfloor, if_neg (by omega)]
  have hrange1 : List.range 1 = [0] := by simp [List.range_succ]
  rw [hrange1]
  simp only [List.map_cons, List.map_nil, Nat.mul_one, Nat.add_zero]
  rw [range_map_getD l (fun v : ℤ => (v : ℚ) / 32768)]

theorem roundTrip_ok (samples : List ℚ) (hne : samples ≠ []) :
    roundTrip samples = .ok (samples.map decodedSample) := by
  have hbytes := atobChars_btoaBytes (bytesOfInt16s (samples.map sampleToInt16))
      (bytesOfInt16s_lt_256 _)
  have hview := int16View_bytesOfInt16s (samples.map sampleToInt16) (by
    intro v hv
    simp only [List.mem_map] at hv
    obtain ⟨x, _, rfl⟩ := hv
    exact ⟨(sampleToInt16_bounds x).1, by have := (sampleToInt16_bounds x).2; omega⟩)
  unfold roundTrip decodeInbound decode
  show (atobChars (createBlob samples).data >>= _) >>= _ = _
  unfold createBlob
  rw [hbytes]
  simp only [bind_ok_eq]
  rw [decodeAudioData_mono _ _ _ hview (by simp [hne])]
  simp only [bind_ok_eq, List.getD_cons_zero, List.map_map]
  rfl

theorem int16View_ok_of_even :
    ∀ bytes : List ℕ, bytes.length % 2 = 0 →
      ∃ vs : List ℤ, int16View bytes = .ok vs ∧ vs.length = bytes.length / 2 := by
  intro bytes
  induction bytes using int16View.induct with
  | case1 => exact fun _ => ⟨[], rfl, rfl⟩
  | case2 b => intro h; simp at h
  | case3 b0 b1 rest ih =>
      intro h
      obtain ⟨vs, hv, hl⟩ := ih (by simp at h; omega)
      refine ⟨int16Pair b0 b1 :: vs, ?_, ?_⟩
      · simp [int16View, hv, bind_ok_eq]
      · simp only [List.length_cons, hl]
        omega

theorem decodeAudioData_even_total (bytes : List ℕ) (h : bytes.length % 2 = 0) :
    ∃ buf, decodeAudioData bytes 24000 1 = .ok buf := by
  obtain ⟨vs, hv, hl⟩ := int16View_ok_of_even bytes h
  by_cases hne : vs = []
  · subst hne
    refine ⟨{ numChannels := 1, sampleRate := 24000, channels := [[0]] }, ?_⟩
    unfold decodeAudioData
    rw [hv]
    simp only [bind_ok_eq]
    rw [if_pos (by norm_num)]
    rfl
  · exact ⟨_, decodeAudioData_mono bytes vs 24000 hv hne⟩

/-! ## Claims -/

/-- C1 (counterexample): the claim states that every tool-call receives exactly one
correlated acknowledgement even if the application callback throws.  In the code the
acknowledgement is scheduled only *after* `onStatusUpdate(signalData)` returns, with no
try/finally: a callback that throws aborts the handler before `sendToolResponse` is
scheduled.  Concretely, one `update_guardian_status` call with id `id-7` processed with
a throwing callback produces zero acknowledgement attempts (and the exception escapes),
not exactly one. -/
theorem C1_counterexample :
    handleToolCalls (fun _ => .error "boom") (fun _ => true)
      [{ id := "id-7", name := "update_guardian_status",
         args := { signal := "caution", reason := "r", gentle_hint := none,
                   confidence_note := none, risk_trend := "rising",
                   suggested_action := none } }]
    = ([], some "boom") := by decide

/-- C1 (amended): for every tool-call message whose application callback returns
normally, exactly one acknowledgement referencing the call's id and name is attempted
per call named `update_guardian_status` (in arrival order, none for other names), the
handler completes without an escaping exception, and which acknowledgement sends fail
has no effect on the set of acknowledgements attempted (a send failure is caught and
logged, not retried, and does not block further processing). -/
theorem C1_acks_when_callback_ok (cb : GuardianSignal → Except String Unit)
    (hcb : ∀ g, cb g = .ok ()) (sendOk sendOk2 : String → Bool)
    (calls : List FunctionCall) :
    (handleToolCalls cb sendOk calls).1.map (fun a => (a.id, a.name))
        = (calls.filter (fun fc => fc.name == "update_guardian_status")).map
            (fun fc => (fc.id, fc.name)) ∧
    (handleToolCalls cb sendOk calls).2 = none ∧
    (handleToolCalls cb sendOk calls).1.map (fun a => (a.id, a.name))
        = (handleToolCalls cb sendOk2 calls).1.map (fun a => (a.id, a.name)) := by
  induction calls with
  | nil => exact ⟨rfl, rfl, rfl⟩
  | cons fc rest ih =>
      by_cases hname : fc.name = "update_guardian_status"
      · simp only [handleToolCalls, hname, if_pos rfl, hcb, List.filter_cons,
          List.map_cons, beq_self_eq_true, if_pos]
        exact ⟨by simp [ih.1], ih.2.1, by simp [ih.2.2]⟩
      · simp only [handleToolCalls, if_neg hname, List.filter_cons]
        rw [if_neg (by simpa using hname)]
        exact ih

/-- C1 (amended, witness): concrete instance with one guardian call and a succeeding
callback, under a failing and a succeeding acknowledgement send. -/
theorem C1_acks_when_callback_ok_witness :
    (handleToolCalls (fun _ => .ok ()) (fun _ => false)
        [{ id := "id-1", name := "update_guardian_status",
           args := { signal := "none", reason := "r", gentle_hint := none,
                     confidence_note := none, risk_trend := "stable",
                     suggested_action := none } }]).1.map (fun a => (a.id, a.name))
        = (([{ id := "id-1", name := "update_guardian_status",
               args := { signal := "none", reason := "r", gentle_hint := none,
                         confidence_note := none, risk_trend := "stable",
                         suggested_action := none } }] : List FunctionCall).filter
            (fun fc => fc.name == "update_guardian_status")).map
            (fun fc => (fc.id, fc.name)) ∧
    (handleToolCalls (fun _ => .ok ()) (fun _ => false)
        [{ id := "id-1", name := "update_guardian_status",
           args := { signal := "none", reason := "r", gentle_hint := none,
                     confidence_note := none, risk_trend := "stable",
                     suggested_action := none } }]).2 = none :=
  ⟨(C1_acks_when_callback_ok (fun _ => .ok ()) (fun _ => rfl) (fun _ => false)
      (fun _ => true) _).1,
   (C1_acks_when_callback_ok (fun _ => .ok ()) (fun _ => rfl) (fun _ => false)
      (fun _ => true) _).2.1⟩

/-- C2: a transport close without a preceding explicit stop leaves the accumulated
transcript non-empty and unchanged, does not reset the feedback UI state, does not
trigger the feedback hand-off, and surfaces the dropped-connection status rather than
the normal disconnected status (in both views); the hand-off to the feedback
collaborator is triggered (exactly once) only by the explicit stop, also when a close
follows it. -/
theorem C2_drop_preserves_state :
    (∀ s : PracticeState, s.isExplicitlyStopped = false → s.conversation ≠ [] →
      (onCloseCallback s).conversation = s.conversation ∧
      (onCloseCallback s).conversation ≠ [] ∧
      (onCloseCallback s).feedback = s.feedback ∧
      (onCloseCallback s).handOffCount = s.handOffCount ∧
      (onCloseCallback s).status
        = "Connection Ended (Check Network). You can View Analysis." ∧
      (onCloseCallback s).status ≠ "Disconnected") ∧
    (∀ (s : PracticeState) (fb : Option PracticeFeedback), 2 < s.conversation.length →
      (handleDisconnect s fb).handOffCount = s.handOffCount + 1 ∧
      (onCloseCallback (handleDisconnect s fb)).handOffCount = s.handOffCount + 1) ∧
    (∀ g : GuardState, g.isMonitoring = true →
      (guardOnClose g).transcript = g.transcript ∧
      (guardOnClose g).guardianSignal = g.guardianSignal ∧
      (guardOnClose g).isConnected = false ∧
      (guardOnClose g).status = "Connection Dropped. Transcript Saved.") := by
  refine ⟨?_, ?_, ?_⟩
  · intro s hstop hne
    simp [onCloseCallback, hstop, hne]
  · intro s fb hlen
    cases fb <;> simp [handleDisconnect, onCloseCallback, hlen]
  · intro g hmon
    simp [guardOnClose, hmon]

/-- C2 (witness): a concrete dropped session with a two-message transcript, a concrete
explicit stop on a three-message transcript, and a concrete monitored guardian state. -/
theorem C2_drop_preserves_state_witness :
    ((onCloseCallback
        { isConnected := true, isAiSpeaking := false, status := "Connected",
          conversation := [{ id := "1", role := .USER, text := "hi", timestamp := 0 }],
          feedback := none, feedbackError := none, isExplicitlyStopped := false,
          sessionOpen := true, micTracksStopped := false, inputCtxClosed := false,
          outputCtxClosed := false, handOffCount := 0 }).conversation
      = [{ id := "1", role := .USER, text := "hi", timestamp := 0 }]) ∧
    ((handleDisconnect
        { isConnected := true, isAiSpeaking := false, status := "Connected",
          conversation := [{ id := "1", role := .USER, text := "a", timestamp := 0 },
                           { id := "2", role := .MODEL, text := "b", timestamp := 1 },
                           { id := "3", role := .USER, text := "c", timestamp := 2 }],
          feedback := none, feedbackError := none, isExplicitlyStopped := false,
          sessionOpen := true, micTracksStopped := false, inputCtxClosed := false,
          outputCtxClosed := false, handOffCount := 0 } none).handOffCount = 0 + 1) ∧
    ((guardOnClose
        { relationship := "Friend", isConnected := true, status := "Monitoring...",
          guardianSignal := none,
          transcript := [{ role := "user", text := "t", time := "12:00" }],
          isMonitoring := true, sessionOpen := true,
          micTracksStopped := false, inputCtxClosed := false }).status
      = "Connection Dropped. Transcript Saved.") :=
  ⟨(C2_drop_preserves_state.1 _ rfl (by decide)).1,
   (C2_drop_preserves_state.2.1 _ none (by decide)).1,
   (C2_drop_preserves_state.2.2 _ rfl).2.2.2⟩

/-- C3: over any uninterrupted stream of decoded buffers with non-negative durations,
each buffer is scheduled at `max(nextStartTime, currentDeviceTime)` and the cursor then
advances by the buffer's duration; consequently buffer `n+1` starts no earlier than the
end of buffer `n`, no buffer starts before the device time at its delivery, and the
cursor is monotonically non-decreasing (arrival order = playback order). -/
theorem C3_scheduler_fifo (now dur : ℕ → ℚ) (hdur : ∀ n, 0 ≤ dur n) :
    (∀ (s : PlaybackState) (t d : ℚ) (uid : ℕ),
      (onAudioChunk s t d uid).2 = max s.nextStartTime t ∧
      (onAudioChunk s t d uid).1.nextStartTime = (onAudioChunk s t d uid).2 + d) ∧
    (∀ n, schedStart now dur n + dur n ≤ schedStart now dur (n + 1)) ∧
    (∀ n, now n ≤ schedStart now dur n) ∧
    (∀ n, (schedState now dur n).nextStartTime
        ≤ (schedState now dur (n + 1)).nextStartTime) := by
  refine ⟨fun s t d uid => ⟨rfl, rfl⟩, ?_, ?_, ?_⟩
  · intro n
    show (schedState now dur (n + 1)).nextStartTime ≤ _
    exact le_max_left _ _
  · intro n
    exact le_max_right _ _
  · intro n
    calc (schedState now dur n).nextStartTime
        ≤ max (schedState now dur n).nextStartTime (now n) := le_max_left _ _
      _ ≤ max (schedState now dur n).nextStartTime (now n) + dur n := by
          have := hdur n
          linarith
      _ = (schedState now dur (n + 1)).nextStartTime := rfl

/-- C3 (witness): the constant stream arriving at device time 0 with unit durations. -/
theorem C3_scheduler_fifo_witness :
    schedStart (fun _ => 0) (fun _ => 1) 0 + (fun _ : ℕ => (1 : ℚ)) 0
      ≤ schedStart (fun _ => 0) (fun _ => 1) 1 ∧
    (fun _ : ℕ => (0 : ℚ)) 0 ≤ schedStart (fun _ => 0) (fun _ => 1) 0 :=
  ⟨(C3_scheduler_fifo (fun _ => 0) (fun _ => 1) (fun _ => by norm_num)).2.1 0,
   (C3_scheduler_fifo (fun _ => 0) (fun _ => 1) (fun _ => by norm_num)).2.2.1 0⟩

/-- C4: the interrupted marker stops every unit in the active set, empties the set,
resets the cursor to zero and clears the agent-speaking flag; a buffer delivered
immediately afterwards is scheduled to start exactly at the current device time
(`max 0 now = now` for the non-negative device clock), never at a stale future offset. -/
theorem C4_interrupt_resets (s : PlaybackState) (now dur : ℚ) (uid : ℕ)
    (hnow : 0 ≤ now) :
    (onInterrupted s).activeUnits = [] ∧
    (onInterrupted s).nextStartTime = 0 ∧
    (onInterrupted s).aiSpeaking = false ∧
    (∀ u ∈ s.activeUnits, u ∈ (onInterrupted s).stoppedUnits) ∧
    (onAudioChunk (onInterrupted s) now dur uid).2 = now := by
  refine ⟨rfl, rfl, rfl, ?_, ?_⟩
  · intro u hu
    simp [onInterrupted, hu]
  · show max (0 : ℚ) now = now
    exact max_eq_right hnow

/-- C4 (witness): a concrete interruption of a schedule with two active units and a
queued cursor, followed by a delivery at device time 5. -/
theorem C4_interrupt_resets_witness :
    (onInterrupted ⟨10, [3, 4], true, []⟩).activeUnits = [] ∧
    (onInterrupted ⟨10, [3, 4], true, []⟩).nextStartTime = 0 ∧
    (onAudioChunk (onInterrupted ⟨10, [3, 4], true, []⟩) 5 1 7).2 = 5 :=
  ⟨(C4_interrupt_resets ⟨10, [3, 4], true, []⟩ 5 1 7 (by norm_num)).1,
   (C4_interrupt_resets ⟨10, [3, 4], true, []⟩ 5 1 7 (by norm_num)).2.1,
   (C4_interrupt_resets ⟨10, [3, 4], true, []⟩ 5 1 7 (by norm_num)).2.2.2.2⟩

/-- C5 (counterexample): the claim bounds the round-trip error by one quantization step
(±1/32768) for every sample in [-1,1].  At `x = 65535/65536` (exactly representable in
binary32, with every JS operation on it exact) the encoder truncates
`x * 32767 = 32766.50001...` to 32766 and the decoder returns `32766/32768 = 16383/16384`,
an error of `3/65536 = 1.5/32768 > 1/32768`. -/
theorem C5_counterexample :
    roundTrip [(65535 : ℚ) / 65536] = .ok [16383 / 16384] ∧
    ¬ |(65535 : ℚ) / 65536 - 16383 / 16384| ≤ 1 / 32768 := by
  constructor
  · decide
  · decide

/-- C5 (amended): for every non-empty block of samples the codec round trip
`decode(encode(samples))` succeeds and reproduces each sample in [-1,1] within **two**
quantization steps (error strictly below 2/32768; negative samples are within one step,
non-negative samples may be off by up to just under two steps because the encoder
truncates `x * 32767` toward zero while the decoder divides by 32768). -/
theorem C5_roundTrip_two_steps (samples : List ℚ) (hne : samples ≠ []) :
    roundTrip samples = .ok (samples.map decodedSample) ∧
    ∀ x ∈ samples, -1 ≤ x → x ≤ 1 → |x - decodedSample x| < 2 / 32768 :=
  ⟨roundTrip_ok samples hne, fun _ _ h1 h2 => decodedSample_close h1 h2⟩

/-- C5 (amended, witness): the round trip of the single-sample block `[1/2]`. -/
theorem C5_roundTrip_two_steps_witness :
    roundTrip [(1 : ℚ) / 2] = .ok ([(1 : ℚ) / 2].map decodedSample) ∧
    |(1 : ℚ) / 2 - decodedSample ((1 : ℚ) / 2)| < 2 / 32768 :=
  ⟨(C5_roundTrip_two_steps [(1 : ℚ) / 2] (by simp)).1,
   (C5_roundTrip_two_steps [(1 : ℚ) / 2] (by simp)).2 ((1 : ℚ) / 2) (by simp)
     (by norm_num) (by norm_num)⟩

/-- C6 (counterexample): the claim states decoding never raises.  The payload `"AA=="`
is well-formed base64 decoding to a single byte; `new Int16Array(data.buffer)` then
throws a `RangeError` because the byte length 1 is not a multiple of 2, so the inbound
decode path raises instead of yielding silence. -/
theorem C6_counterexample :
    decodeInbound ['A', 'A', '=', '='] = .error "RangeError" := by decide

/-- C6 (amended): for payloads whose decoded byte count is even, `decodeAudioData`
never fails for the mono layout the engine uses, and a zero-frame payload yields the
single silent safe buffer; payloads with an odd byte count (and malformed base64 in
`decode`) raise instead. -/
theorem C6_decode_even_total (bytes : List ℕ) (h : bytes.length % 2 = 0) :
    (∃ buf, decodeAudioData bytes 24000 1 = .ok buf) ∧
    (bytes = [] → decodeAudioData bytes 24000 1
        = .ok { numChannels := 1, sampleRate := 24000, channels := [[0]] }) := by
  refine ⟨decodeAudioData_even_total bytes h, ?_⟩
  rintro rfl
  decide

/-- C6 (amended, witness): the two-byte payload `[0, 0]` decodes successfully, and the
empty payload yields the silent safe buffer. -/
theorem C6_decode_even_total_witness :
    (∃ buf, decodeAudioData [0, 0] 24000 1 = .ok buf) ∧
    (decodeAudioData [] 24000 1
        = .ok { numChannels := 1, sampleRate := 24000, channels := [[0]] }) :=
  ⟨(C6_decode_even_total [0, 0] (by decide)).1,
   (C6_decode_even_total [] (by decide)).2 rfl⟩

/-- C7 (counterexample): the claim states that on every terminal transition the
microphone tracks are stopped and both audio contexts are closed, including exception
paths during connect.  The code never calls `MediaStreamTrack.stop()` anywhere, and the
catch block of `connect` releases nothing: after an explicit stop of a connected session
the microphone-track-stopped flag is still false, and after an exception during connect
the already-created audio contexts remain open. -/
theorem C7_counterexample :
    (handleDisconnect
      { isConnected := true, isAiSpeaking := false, status := "Connected",
        conversation := [], feedback := none, feedbackError := none,
        isExplicitlyStopped := false, sessionOpen := true,
        micTracksStopped := false, inputCtxClosed := false,
        outputCtxClosed := false, handOffCount := 0 } none).micTracksStopped = false ∧
    (connectCatch
      { isConnected := false, isAiSpeaking := false, status := "Requesting Microphone...",
        conversation := [], feedback := none, feedbackError := none,
        isExplicitlyStopped := false, sessionOpen := false,
        micTracksStopped := false, inputCtxClosed := false,
        outputCtxClosed := false, handOffCount := 0 } "Connection Failed").inputCtxClosed
      = false := by decide

/-- C7 (amended): the explicit stop of either view closes the session handle and the
audio device context(s) it owns, but microphone tracks are never stopped on any path,
and an exception during connect releases neither audio context (they are closed only by
the unmount cleanup effect outside the session lifecycle). -/
theorem C7_stop_closes_contexts (s : PracticeState) (fb : Option PracticeFeedback)
    (g : GuardState) (msg : String) :
    (handleDisconnect s fb).inputCtxClosed = true ∧
    (handleDisconnect s fb).outputCtxClosed = true ∧
    (handleDisconnect s fb).sessionOpen = false ∧
    (handleDisconnect s fb).micTracksStopped = s.micTracksStopped ∧
    (stopMonitoring g).inputCtxClosed = true ∧
    (stopMonitoring g).sessionOpen = false ∧
    (stopMonitoring g).micTracksStopped = g.micTracksStopped ∧
    (connectCatch s msg).inputCtxClosed = s.inputCtxClosed ∧
    (connectCatch s msg).outputCtxClosed = s.outputCtxClosed ∧
    (connectCatch s msg).micTracksStopped = s.micTracksStopped := by
  by_cases hl : 2 < s.conversation.length <;> cases fb <;>
    simp [handleDisconnect, stopMonitoring, connectCatch, hl]

/-- C8 (counterexample): the claim states that calling `stop()` twice produces the same
terminal state as calling it once.  With more than two accumulated transcript messages
every invocation of `handleDisconnect` re-runs the feedback hand-off (and appends
another history entry), so the second stop leaves a different state: the hand-off
counter is 2 instead of 1. -/
theorem C8_counterexample :
    handleDisconnect
      (handleDisconnect
        { isConnected := true, isAiSpeaking := false, status := "Connected",
          conversation := [{ id := "1", role := .USER, text := "a", timestamp := 0 },
                           { id := "2", role := .MODEL, text := "b", timestamp := 1 },
                           { id := "3", role := .USER, text := "c", timestamp := 2 }],
          feedback := none, feedbackError := none, isExplicitlyStopped := false,
          sessionOpen := true, micTracksStopped := false, inputCtxClosed := false,
          outputCtxClosed := false, handOffCount := 0 }
        (some { strengths := [], improvements := [], goal_alignment_score := 5,
                clarity_score := 5, empathy_score := 5, confidence_score := 5,
                coach_note := "n" }))
      (some { strengths := [], improvements := [], goal_alignment_score := 5,
              clarity_score := 5, empathy_score := 5, confidence_score := 5,
              coach_note := "n" })
    ≠ handleDisconnect
        { isConnected := true, isAiSpeaking := false, status := "Connected",
          conversation := [{ id := "1", role := .USER, text := "a", timestamp := 0 },
                           { id := "2", role := .MODEL, text := "b", timestamp := 1 },
                           { id := "3", role := .USER, text := "c", timestamp := 2 }],
          feedback := none, feedbackError := none, isExplicitlyStopped := false,
          sessionOpen := true, micTracksStopped := false, inputCtxClosed := false,
          outputCtxClosed := false, handOffCount := 0 }
        (some { strengths := [], improvements := [], goal_alignment_score := 5,
                clarity_score := 5, empathy_score := 5, confidence_score := 5,
                coach_note := "n" }) := by decide

/-- C8 (amended): a second `stop()` is a no-op on the session and resource state with
no duplicate resource-release errors (the session handle is nulled after the first
close, so the second close is skipped, and a close of an already-closed audio context
is caught and swallowed): in the guardian view the stop is fully idempotent, and in the
practice view every field agrees after one and two stops except that with more than two
transcript messages each stop re-triggers the feedback hand-off once. -/
theorem C8_stop_idempotent_resources (s : PracticeState) (fb : Option PracticeFeedback)
    (g : GuardState) :
    stopMonitoring (stopMonitoring g) = stopMonitoring g ∧
    (handleDisconnect (handleDisconnect s fb) fb).isConnected
        = (handleDisconnect s fb).isConnected ∧
    (handleDisconnect (handleDisconnect s fb) fb).isAiSpeaking
        = (handleDisconnect s fb).isAiSpeaking ∧
    (handleDisconnect (handleDisconnect s fb) fb).status
        = (handleDisconnect s fb).status ∧
    (handleDisconnect (handleDisconnect s fb) fb).conversation
        = (handleDisconnect s fb).conversation ∧
    (handleDisconnect (handleDisconnect s fb) fb).feedback
        = (handleDisconnect s fb).feedback ∧
    (handleDisconnect (handleDisconnect s fb) fb).feedbackError
        = (handleDisconnect s fb).feedbackError ∧
    (handleDisconnect (handleDisconnect s fb) fb).isExplicitlyStopped
        = (handleDisconnect s fb).isExplicitlyStopped ∧
    (handleDisconnect (handleDisconnect s fb) fb).sessionOpen
        = (handleDisconnect s fb).sessionOpen ∧
    (handleDisconnect (handleDisconnect s fb) fb).micTracksStopped
        = (handleDisconnect s fb).micTracksStopped ∧
    (handleDisconnect (handleDisconnect s fb) fb).inputCtxClosed
        = (handleDisconnect s fb).inputCtxClosed ∧
    (handleDisconnect (handleDisconnect s fb) fb).outputCtxClosed
        = (handleDisconnect s fb).outputCtxClosed ∧
    (handleDisconnect (handleDisconnect s fb) fb).handOffCount
        = (handleDisconnect s fb).handOffCount
          + (if 2 < s.conversation.length then 1 else 0) := by
  by_cases hl : 2 < s.conversation.length <;> cases fb <;>
    simp [handleDisconnect, stopMonitoring, hl]

/-- C9 (counterexample): the claim states transmission resumes on the first capture
tick after the mute flag is cleared.  The capture handler has a second, independent
gate: with the mute flag cleared but agent audio still queued
(`nextStartTime > currentTime`, here 1 > 0) the tick still transmits nothing. -/
theorem C9_counterexample :
    captureTick false 1 0 [] = none := rfl

/-- C9 (amended): while the mute flag is set, zero frames are transmitted over any run
of capture ticks regardless of any other state; once the flag is cleared, the mute gate
no longer blocks, and a tick transmits its encoded frame exactly when the half-duplex
gate also passes (no queued agent audio, `nextStartTime ≤ currentTime`). -/
theorem C9_mute_gating (ticks : List TickInput)
    (hm : ∀ t ∈ ticks, t.isMuted = true) (t : TickInput)
    (h1 : t.isMuted = false) (h2 : ¬ t.currentTime < t.nextStartTime) :
    transmittedFrames ticks = [] ∧
    captureTick t.isMuted t.nextStartTime t.currentTime t.inputData
      = some (createBlob t.inputData) := by
  constructor
  · induction ticks with
    | nil => rfl
    | cons a rest ih =>
        have ha := hm a (by simp)
        have := ih (fun u hu => hm u (by simp [hu]))
        simp only [transmittedFrames, List.filterMap_cons, captureTick, ha,
          if_pos rfl] at this ⊢
        exact this
  · simp [captureTick, h1, h2]

/-- C9 (amended, witness): a muted run of two ticks transmits nothing, and a concrete
unmuted tick with an idle output schedule transmits its frame. -/
theorem C9_mute_gating_witness :
    transmittedFrames [⟨true, 0, 5, []⟩, ⟨true, 3, 0, []⟩] = [] ∧
    captureTick false 0 5 [] = some (createBlob []) :=
  ⟨(C9_mute_gating [⟨true, 0, 5, []⟩, ⟨true, 3, 0, []⟩]
      (by decide) ⟨false, 0, 5, []⟩ rfl (by norm_num)).1,
   (C9_mute_gating [⟨true, 0, 5, []⟩, ⟨true, 3, 0, []⟩]
      (by decide) ⟨false, 0, 5, []⟩ rfl (by norm_num)).2⟩

/-- C10: in role-switch flush mode a fragment whose role equals the last open message's
role is appended to that message's text, a fragment with a different role (or with no
open message) starts a new message, and feeding `("user","Hel")`, `("user","lo")`,
`("agent","Hi")` from an empty transcript yields exactly the two messages
`user:"Hello"` and `agent:"Hi"`. -/
theorem C10_transcript_assembly :
    (∀ (prev : List ChatMessage) (role : MessageType) (tf fid : String) (ts : ℕ)
        (lastMsg : ChatMessage),
      prev.getLast? = some lastMsg → lastMsg.role = role →
      updateStreamingTranscript prev role tf fid ts
        = prev.dropLast ++ [{ lastMsg with text := lastMsg.text ++ tf }]) ∧
    (∀ (prev : List ChatMessage) (role : MessageType) (tf fid : String) (ts : ℕ)
        (lastMsg : ChatMessage),
      prev.getLast? = some lastMsg → lastMsg.role ≠ role →
      updateStreamingTranscript prev role tf fid ts
        = prev ++ [{ id := fid, role := role, text := tf, timestamp := ts }]) ∧
    (∀ (i1 i2 i3 : String) (t1 t2 t3 : ℕ),
      updateStreamingTranscript
        (updateStreamingTranscript
          (updateStreamingTranscript [] .USER "Hel" i1 t1) .USER "lo" i2 t2)
        .MODEL "Hi" i3 t3
      = [{ id := i1, role := .USER, text := "Hello", timestamp := t1 },
         { id := i3, role := .MODEL, text := "Hi", timestamp := t3 }]) := by
  refine ⟨?_, ?_, ?_⟩
  · intro prev role tf fid ts lastMsg hlast hrole
    simp [updateStreamingTranscript, hlast, hrole]
  · intro prev role tf fid ts lastMsg hlast hrole
    simp [updateStreamingTranscript, hlast, hrole]
  · intro i1 i2 i3 t1 t2 t3
    rfl

/-- C10 (witness): the concrete three-fragment run with concrete ids and timestamps,
and an instance of each flush rule. -/
theorem C10_transcript_assembly_witness :
    (updateStreamingTranscript
        [{ id := "1", role := .USER, text := "Hel", timestamp := 0 }] .USER "lo" "2" 1
      = [{ id := "1", role := .USER, text := "Hello", timestamp := 0 }]) ∧
    (updateStreamingTranscript
        [{ id := "1", role := .USER, text := "Hello", timestamp := 0 }] .MODEL "Hi" "3" 2
      = [{ id := "1", role := .USER, text := "Hello", timestamp := 0 },
         { id := "3", role := .MODEL, text := "Hi", timestamp := 2 }]) ∧
    (updateStreamingTranscript
        (updateStreamingTranscript
          (updateStreamingTranscript [] .USER "Hel" "1" 0) .USER "lo" "2" 1)
        .MODEL "Hi" "3" 2
      = [{ id := "1", role := .USER, text := "Hello", timestamp := 0 },
         { id := "3", role := .MODEL, text := "Hi", timestamp := 2 }]) :=
  ⟨by
    have := C10_transcript_assembly.1
      [{ id := "1", role := .USER, text := "Hel", timestamp := 0 }] .USER "lo" "2" 1
      { id := "1", role := .USER, text := "Hel", timestamp := 0 } rfl rfl
    simpa using this,
   by
    have := C10_transcript_assembly.2.1
      [{ id := "1", role := .USER, text := "Hello", timestamp := 0 }] .MODEL "Hi" "3" 2
      { id := "1", role := .USER, text := "Hello", timestamp := 0 } rfl (by decide)
    simpa using this,
   C10_transcript_assembly.2.2 "1" "2" "3" 0 1 2⟩
